import Mathlib

/-
Verification development for the AgentMesh orchestration and adaptive-memory
core: a shallow embedding of the source-trust ledger (app/memory/long_term.py),
the short-term query state store (app/memory/short_term.py), the credibility
and confidence aggregation (app/agents/verification.py, app/agents/synthesis.py),
the reflection retry gate (app/agents/reflection.py), the pipeline orchestrator
loop (app/orchestrator/main.py), the URL-fetch validation and retry wrapper
(app/tools/url_fetch.py) and the stage-adapter error wrapper (app/agents/base.py),
together with theorems settling the specified properties.

Numeric scores are embedded as rationals; Python's round(x, 2) is embedded as
rounding 100*x to the nearest integer (the tie-break rule is irrelevant to every
property proved here).
-/

namespace AgentMesh

/-! ### Association-list helpers

Both persistent stores (the Mongo-backed source_scores collection and the
in-process dict of ShortTermMemory) are keyed by a string; we embed each as an
association list with first-match lookup and in-place replace-or-append update. -/

/-- Lookup by key in an association list (first match). -/
def assocFind {β : Type} : List (String × β) → String → Option β
  | [], _ => none
  | (k, v) :: rest, key => if k = key then some v else assocFind rest key

/-- Replace the value under a key, or append the binding when absent
(the upsert of `update_one(..., upsert=True)` and of dict assignment). -/
def assocSet {β : Type} : List (String × β) → String → β → List (String × β)
  | [], key, v => [(key, v)]
  | (k, w) :: rest, key, v =>
    if k = key then (key, v) :: rest else (k, w) :: assocSet rest key v

/-! ### Source Trust Ledger (LongTermMemory.update_source_score / get_source_score) -/

/-- One document of the source_scores collection: per-domain observation
counters and the recomputed reliability score. -/
structure SourceRecord where
  total : ℕ
  helpful : ℕ
  score : ℚ
deriving DecidableEq, Repr

/-- The source_scores collection, keyed by domain. -/
abbrev Ledger := List (String × SourceRecord)

/-- LongTermMemory.update_source_score: upsert the domain's document with
total += 1 and helpful += (1 if was_helpful else 0), then recompute and store
score = helpful / total. -/
def update_source_score (ledger : Ledger) (domain : String) (was_helpful : Bool) : Ledger :=
  let old := assocFind ledger domain
  let total := (match old with | some r => r.total | none => 0) + 1
  let helpful :=
    (match old with | some r => r.helpful | none => 0) + (if was_helpful then 1 else 0)
  assocSet ledger domain { total := total, helpful := helpful, score := (helpful : ℚ) / total }

/-- LongTermMemory.get_source_score: current score of a domain, or None when
the domain has never been observed. -/
def get_source_score (ledger : Ledger) (domain : String) : Option ℚ :=
  (assocFind ledger domain).map (fun r => r.score)

/-- A finite sequence of observe(domain, wasHelpful) calls applied
sequentially, oldest first. -/
def applyObservations (ledger : Ledger) : List (String × Bool) → Ledger
  | [] => ledger
  | (d, b) :: obs => applyObservations (update_source_score ledger d b) obs

/-! ### Credibility assessment (VerificationAgent._assess_credibility) -/

/-- One verified finding as the Verifier's report carries it:
verification_status, per-finding confidence, supporting sources. -/
structure Finding where
  status : String
  confidence : ℚ
  supporting_sources : List String
deriving DecidableEq, Repr

/-- VerificationAgent.high_confidence_threshold. -/
def high_confidence_threshold : ℚ := 0.85

/-- VerificationAgent.low_confidence_threshold. -/
def low_confidence_threshold : ℚ := 0.60

/-- Average of the per-finding confidences; 0.5 when there are no
verified findings (`if verified_findings else 0.5`). -/
def avg_finding_confidence (verified_findings : List Finding) : ℚ :=
  if verified_findings = [] then 0.5
  else (verified_findings.map (fun f => f.confidence)).sum / verified_findings.length

/-- Average of the sources' reliability scores touched by the query;
0.5 when no sources were observed (`if source_scores else 0.5`). -/
def avg_source_reliability (source_scores : List ℚ) : ℚ :=
  if source_scores = [] then 0.5 else source_scores.sum / source_scores.length

/-- The credibility level of VerificationAgent._assess_credibility:
high when avg confidence ≥ 0.85 and avg source score ≥ 0.8, else medium when
avg confidence ≥ 0.60 and avg source score ≥ 0.6, else low. -/
def credibility_level (source_scores : List ℚ) (verified_findings : List Finding) : String :=
  if high_confidence_threshold ≤ avg_finding_confidence verified_findings ∧
      (0.8 : ℚ) ≤ avg_source_reliability source_scores then "high"
  else if low_confidence_threshold ≤ avg_finding_confidence verified_findings ∧
      (0.6 : ℚ) ≤ avg_source_reliability source_scores then "medium"
  else "low"

/-! ### Final answer confidence (SynthesisAgent._calculate_confidence) -/

/-- Python's round(x, 2) over our rational embedding: round 100*x to the
nearest integer, divide back. -/
def roundTo2 (x : ℚ) : ℚ := (round (100 * x) : ℤ) / 100

/-- The credibility-level weight map {high: 0.9, medium: 0.7, low: 0.5} with
default 0.5 for any other key. -/
def credibility_score_of_level (level : String) : ℚ :=
  if level = "high" then 0.9 else if level = "medium" then 0.7 else 0.5

/-- SynthesisAgent._calculate_confidence: the weighted sum
0.4 * verification confidence + 0.4 * credibility score + 0.2 * answer quality,
rounded to two decimals and clamped into [0, 1]
(`max(0.0, min(1.0, round(confidence, 2)))`). -/
def calculate_confidence (verification_confidence : ℚ) (level : String)
    (answer_quality : ℚ) : ℚ :=
  let confidence :=
    verification_confidence * 0.4 + credibility_score_of_level level * 0.4 +
      answer_quality * 0.2
  max 0 (min 1 (roundTo2 confidence))

/-! ### Reflection retry gate (ReflectionAgent._should_retry) -/

/-- ReflectionAgent.retry_threshold. -/
def retry_threshold : ℚ := 0.60

/-- ReflectionAgent._should_retry: retry when the overall quality score or the
completeness score is below 0.60, the synthesis confidence is below 0.5, or
the answer does not directly address the query. -/
def should_retry (overall_score completeness_score synthesis_confidence : ℚ)
    (directly_addresses_query : Bool) : Bool :=
  if overall_score < retry_threshold then true
  else if completeness_score < retry_threshold then true
  else if synthesis_confidence < 0.5 then true
  else if !directly_addresses_query then true
  else false

/-! ### Pipeline orchestrator (Orchestrator._execute_pipeline)

Each iteration of the while-loop body runs the five stage adapters in order
(planning, research, verification, synthesis, optional reflection).  The
external collaborators' behavior on the iteration with a given retry_count is
abstracted as an `AttemptBehavior`: which stage adapter (if any) raises an
AgentError, and which verdict the Reflector returns when it runs. -/

/-- A pipeline stage, in the order the loop body enters them. -/
inductive Stage
  | planning
  | researching
  | verifying
  | synthesizing
  | reflecting
deriving DecidableEq, Repr

/-- How one iteration of the loop body ends: a normal return, a reflection
verdict requesting a retry, or an AgentError raised by a stage adapter. -/
inductive AttemptResult
  | success
  | retryRequested
  | agentError
deriving DecidableEq, Repr

/-- The collaborators' behavior on one iteration: whether each stage
adapter's run raises an AgentError, and the Reflector's should_retry verdict
when reflection runs without error. -/
structure AttemptBehavior where
  plannerErr : Bool
  researcherErr : Bool
  verifierErr : Bool
  synthesizerErr : Bool
  reflectorErr : Bool
  verdictShouldRetry : Bool
deriving DecidableEq, Repr

/-- The stages one iteration of the loop body enters, in order, stopping at
the first stage whose adapter raises. -/
def attemptStages (b : AttemptBehavior) (enable_reflection : Bool) : List Stage :=
  if b.plannerErr then [.planning]
  else if b.researcherErr then [.planning, .researching]
  else if b.verifierErr then [.planning, .researching, .verifying]
  else if b.synthesizerErr then [.planning, .researching, .verifying, .synthesizing]
  else if enable_reflection then
    [.planning, .researching, .verifying, .synthesizing, .reflecting]
  else [.planning, .researching, .verifying, .synthesizing]

/-- How one iteration of the loop body ends, for the same behavior. -/
def attemptResult (b : AttemptBehavior) (enable_reflection : Bool) : AttemptResult :=
  if b.plannerErr ∨ b.researcherErr ∨ b.verifierErr ∨ b.synthesizerErr then .agentError
  else if enable_reflection then
    if b.reflectorErr then .agentError
    else if b.verdictShouldRetry then .retryRequested
    else .success
  else .success

/-- The terminal outcome of one query: Completed (with the final retry_count
packaged into the result) or Failed (AgentError propagated out). -/
inductive PipelineOutcome
  | completed (retry_count : ℕ)
  | failed
deriving DecidableEq, Repr

/-- Orchestrator.max_retries (default configuration). -/
def orchestrator_max_retries : ℕ := 2

/-- The while-loop of Orchestrator._execute_pipeline from a given retry_count,
with fuel max_retries + 1 - retry_count (the loop guard retry_count ≤
max_retries): on success the result is finalized; on a reflection retry verdict
the loop continues with retry_count + 1 when retry_count < max_retries and
otherwise falls through to finalization; on an AgentError the loop continues
with retry_count + 1 when retry_count < max_retries and otherwise re-raises,
failing the query.  Returns the outcome and the concatenated trace of stages
entered.  The fuel-0 case mirrors the unreachable raise after the loop. -/
def execute_pipeline_from (behavior : ℕ → AttemptBehavior) (max_retries : ℕ)
    (enable_reflection : Bool) : ℕ → ℕ → PipelineOutcome × List Stage
  | _, 0 => (.failed, [])
  | retry_count, fuel + 1 =>
    let stages := attemptStages (behavior retry_count) enable_reflection
    match attemptResult (behavior retry_count) enable_reflection with
    | .success => (.completed retry_count, stages)
    | .retryRequested =>
      if retry_count < max_retries then
        let rest := execute_pipeline_from behavior max_retries enable_reflection
          (retry_count + 1) fuel
        (rest.1, stages ++ rest.2)
      else (.completed retry_count, stages)
    | .agentError =>
      if retry_count < max_retries then
        let rest := execute_pipeline_from behavior max_retries enable_reflection
          (retry_count + 1) fuel
        (rest.1, stages ++ rest.2)
      else (.failed, stages)

/-- Orchestrator._execute_pipeline: the loop started at retry_count 0. -/
def execute_pipeline (behavior : ℕ → AttemptBehavior) (max_retries : ℕ)
    (enable_reflection : Bool) : PipelineOutcome × List Stage :=
  execute_pipeline_from behavior max_retries enable_reflection 0 (max_retries + 1)

/-- An attempt on which every stage adapter succeeds and the Reflector does
not request a retry. -/
def cleanAttempt : AttemptBehavior :=
  { plannerErr := false, researcherErr := false, verifierErr := false,
    synthesizerErr := false, reflectorErr := false, verdictShouldRetry := false }

/-- Behavior: the Reflector requests a retry on the first attempt only
(its verdict on attempt 0 is the one a 0.50 quality score forces). -/
def retryOnceBehavior : ℕ → AttemptBehavior := fun n =>
  { cleanAttempt with verdictShouldRetry := n = 0 }

/-- Behavior: the Reflector requests a retry on every attempt. -/
def alwaysRetryBehavior : ℕ → AttemptBehavior := fun _ =>
  { cleanAttempt with verdictShouldRetry := true }

/-- Behavior: the research stage adapter raises an AgentError on every
attempt. -/
def alwaysResearchErrBehavior : ℕ → AttemptBehavior := fun _ =>
  { cleanAttempt with researcherErr := true }

/-- Behavior: the research stage adapter raises an AgentError on the first
attempt only (as when a non-recoverable fetch error escapes its execute and
BaseAgent.run wraps it), and every later attempt is clean. -/
def researchErrOnceBehavior : ℕ → AttemptBehavior := fun n =>
  { cleanAttempt with researcherErr := n = 0 }

/-! ### Stage-adapter error wrapper (BaseAgent.run)

BaseAgent.run catches every exception its execute raises — validation errors
and domain-not-allowed errors included — and re-raises it as an AgentError,
the one exception type Orchestrator._execute_pipeline handles with its
pipeline-level retry. -/

/-- The kinds of exception a stage adapter's execute can raise. -/
inductive StageExc
  | validationError
  | domainNotAllowed
  | toolError
  | llmError
  | memoryError
deriving DecidableEq, Repr

/-- BaseAgent.run: a successful execute returns its output; any escaping
exception is re-raised as AgentError (the error kind is erased). -/
def base_agent_run {α : Type} : Except StageExc α → Except Unit α
  | .ok a => .ok a
  | .error _ => .error ()

/-! ### URL fetch validation and retry (app/tools/url_fetch.py) -/

/-- settings.ALLOWED_DOMAINS (default configuration). -/
def ALLOWED_DOMAINS : List String :=
  ["who.int", "cdc.gov", "nih.gov", "bmj.com", "thelancet.com", "nejm.org",
   "jamanetwork.com", "pubmed.ncbi.nlm.nih.gov", "www.who.int", "www.cdc.gov",
   "www.nih.gov"]

/-- Whether the first list starts with the second. -/
def listStartsWith : List Char → List Char → Bool
  | _, [] => true
  | [], _ :: _ => false
  | a :: s, b :: t => a = b && listStartsWith s t

/-- Python's substring test `pat in s`, on character lists. -/
def listHasSub : List Char → List Char → Bool
  | [], pat => pat.isEmpty
  | a :: t, pat => listStartsWith (a :: t) pat || listHasSub t pat

/-- str.startswith over the underlying characters. -/
def strStartsWith (s pat : String) : Bool := listStartsWith s.data pat.data

/-- Python's `pat in s` over the underlying characters. -/
def strHasSub (s pat : String) : Bool := listHasSub s.data pat.data

/-- str.lower for one character (the allow-listed domains are ASCII). -/
def lowerChar (c : Char) : Char :=
  if 'A' ≤ c ∧ c ≤ 'Z' then Char.ofNat (c.toNat + 32) else c

/-- str.lower over the underlying characters. -/
def strLower (s : String) : String := ⟨s.data.map lowerChar⟩

/-- An ASCII whitespace character (what str.strip removes). -/
def isSpaceChar (c : Char) : Bool := c = ' ' || c = '\t' || c = '\n' || c = '\r'

/-- Python's `not url or not url.strip()`: the string is empty or all
whitespace. -/
def isBlankStr (s : String) : Bool := s.data.all isSpaceChar

/-- is_allowed_domain: the URL is nonempty and some configured domain occurs
in it case-insensitively (`domain.lower() in url_lower`). -/
def is_allowed_domain (url : String) : Bool :=
  if url = "" then false
  else ALLOWED_DOMAINS.any (fun domain => strHasSub (strLower url) (strLower domain))

/-- The errors open_url and extract_text can raise, by exception class;
tool-execution errors carry their recoverable flag. -/
inductive FetchError
  | invalidParameter
  | invalidURL
  | domainNotAllowed
  | toolTimeout
  | toolExecution (recoverable : Bool)
deriving DecidableEq, Repr

/-- The validation prefix of open_url, raised before any network request:
empty or whitespace-only URL → InvalidParameterError; a URL not starting with
http:// or https:// → InvalidURLError; a URL whose domain is not allow-listed →
DomainNotAllowedError. -/
def open_url_validation (url : String) : Option FetchError :=
  if isBlankStr url then some .invalidParameter
  else if ¬ (strStartsWith url "http://" = true ∨ strStartsWith url "https://" = true) then
    some .invalidURL
  else if ¬ is_allowed_domain url then some .domainNotAllowed
  else none

/-- One attempt of fetch_and_extract: open_url's validation first, then the
network fetch and extraction, whose outcome on the n-th attempt is the
external collaborator's behavior `net n`. -/
def fetchAttempt (url : String) (net : ℕ → Except FetchError String) (n : ℕ) :
    Except FetchError String :=
  match open_url_validation url with
  | some e => .error e
  | none => net n

/-- The retry loop of fetch_and_extract_with_retry from a given attempt index,
with fuel max_retries + 1 - attempt (the loop runs attempts 0..max_retries):
success returns; a timeout is retried unless the attempt index has reached
max_retries; DomainNotAllowedError and InvalidURLError are re-raised at once;
InvalidParameterError is not caught by any clause and propagates at once; any
other tool error is retried only while recoverable and attempt < max_retries.
Returns the result and the number of attempts performed. -/
def fetch_with_retry_from (url : String) (net : ℕ → Except FetchError String)
    (max_retries : ℕ) : ℕ → ℕ → Except FetchError String × ℕ
  | attempt, 0 => (.error .toolTimeout, attempt)
  | attempt, fuel + 1 =>
    match fetchAttempt url net attempt with
    | .ok text => (.ok text, attempt + 1)
    | .error .toolTimeout =>
      if attempt = max_retries then (.error .toolTimeout, attempt + 1)
      else fetch_with_retry_from url net max_retries (attempt + 1) fuel
    | .error .domainNotAllowed => (.error .domainNotAllowed, attempt + 1)
    | .error .invalidURL => (.error .invalidURL, attempt + 1)
    | .error .invalidParameter => (.error .invalidParameter, attempt + 1)
    | .error (.toolExecution r) =>
      if r ∧ attempt < max_retries then
        fetch_with_retry_from url net max_retries (attempt + 1) fuel
      else (.error (.toolExecution r), attempt + 1)

/-- fetch_and_extract_with_retry: the retry loop started at attempt 0. -/
def fetch_and_extract_with_retry (url : String) (net : ℕ → Except FetchError String)
    (max_retries : ℕ) : Except FetchError String × ℕ :=
  fetch_with_retry_from url net max_retries 0 (max_retries + 1)

/-- settings.MAX_RETRIES (default configuration, the fetch retry budget). -/
def settings_MAX_RETRIES : ℕ := 3

/-- The not-allow-listed URL of the spec's scenario. -/
def exampleComUrl : String := "https://www.example.com/page"

/-! ### Verification report and trust-ledger feedback
(VerificationAgent._generate_verification_report / _update_source_reliability) -/

/-- The leading characters up to (and excluding) the first stop character. -/
def takeUntilChar (stops : List Char) : List Char → List Char
  | [] => []
  | a :: t => if a ∈ stops then [] else a :: takeUntilChar stops t

/-- A character urlsplit accepts inside a URL scheme after its first letter:
a letter, a digit, '+', '-' or '.'. -/
def isSchemeChar (c : Char) : Bool := c.isAlphanum || c = '+' || c = '-' || c = '.'

/-- Continuation of the scheme scan of urlsplit: the characters after the
first ':' when everything before it is a scheme character; none when a
non-scheme character or the end of the string comes first. -/
def afterSchemeRest : List Char → Option (List Char)
  | [] => none
  | c :: rest =>
    if c = ':' then some rest
    else if isSchemeChar c then afterSchemeRest rest
    else none

/-- The characters after the "scheme:" prefix when the string starts with a
valid URL scheme and a colon (urlsplit accepts a scheme only when its first
character is a letter and the rest are scheme characters); none otherwise. -/
def afterScheme : List Char → Option (List Char)
  | [] => none
  | c :: rest => if c.isAlpha then afterSchemeRest rest else none

/-- urlparse(url).netloc: urlsplit strips a leading valid "scheme:" when
present, and parses a netloc only when what remains starts with "//",
taking the text up to the next "/", "?" or "#"; the netloc is empty
otherwise. -/
def urlNetloc (url : String) : String :=
  match (afterScheme url.data).getD url.data with
  | '/' :: '/' :: tail => String.mk (takeUntilChar ['/', '?', '#'] tail)
  | _ => ""

/-- The domain of one supporting source as _update_source_reliability extracts
it: `urlparse(source_url).netloc if source_url.startswith('http') else
source_url`. -/
def sourceDomain (source_url : String) : String :=
  if strStartsWith source_url "http" then urlNetloc source_url else source_url

/-- The slices of the verification report that feed the trust ledger:
_generate_verification_report partitions the LLM-verified findings by
verification_status. -/
structure VerificationReport where
  verified_findings : List Finding
  partially_verified_findings : List Finding
  unverified_findings : List Finding
deriving DecidableEq, Repr

/-- VerificationAgent._generate_verification_report, restricted to the
status partition the ledger update reads. -/
def generate_verification_report (findings : List Finding) : VerificationReport :=
  { verified_findings := findings.filter (fun f => f.status = "verified")
    partially_verified_findings := findings.filter (fun f => f.status = "partially_verified")
    unverified_findings := findings.filter (fun f => f.status = "unverified") }

/-- VerificationAgent._update_source_reliability as the ordered list of
observe(domain, was_helpful) calls it issues: for every finding of the
report's verified_findings and every supporting source whose extracted domain
is nonempty, (domain, true); then likewise (domain, false) over the report's
unverified_findings. -/
def update_source_reliability (report : VerificationReport) : List (String × Bool) :=
  (report.verified_findings.flatMap fun f =>
    ((f.supporting_sources.map sourceDomain).filter (fun d => ¬ d = "")).map
      (fun d => (d, true))) ++
  (report.unverified_findings.flatMap fun f =>
    ((f.supporting_sources.map sourceDomain).filter (fun d => ¬ d = "")).map
      (fun d => (d, false)))

/-- Modelled from the spec: the feedback-loop contract in its own words —
findings confirmed as verified feed observe(domain, true) for every supporting
source, findings left unverified feed observe(domain, false). -/
def specFeedbackUpdates (findings : List Finding) : List (String × Bool) :=
  ((findings.filter (fun f => f.status = "verified")).flatMap fun f =>
    f.supporting_sources.map (fun s => (sourceDomain s, true))) ++
  ((findings.filter (fun f => f.status = "unverified")).flatMap fun f =>
    f.supporting_sources.map (fun s => (sourceDomain s, false)))

/-! ### Query State Store (app/memory/short_term.py) -/

/-- One entry of a QueryState's tool-call log. -/
structure ToolCallRecord where
  tool : String
  params : String
  result_type : String
  timestamp : ℕ
deriving DecidableEq, Repr

/-- One entry of a QueryState's error log. -/
structure ErrorRecord where
  agent : String
  error_type : String
  error_message : String
  timestamp : ℕ
deriving DecidableEq, Repr

/-- One research finding as store_research_findings receives it: an optional
url key and the rest of the payload. -/
structure ResearchItem where
  url : Option String
  payload : String
deriving DecidableEq, Repr

/-- The reflection feedback dict: its payload and its optional confidence
value (store_reflection_feedback reads feedback.get('confidence', 0.0)). -/
structure ReflectionFeedback where
  payload : String
  confidence : Option ℚ
deriving DecidableEq, Repr

/-- The QueryState dataclass of ShortTermMemory, payloads embedded as
opaque strings and timestamps as ticks. -/
structure QueryState where
  query_id : String
  query : String
  status : String
  created_at : ℕ
  updated_at : ℕ
  retry_count : ℕ
  plan : Option String
  research_findings : List ResearchItem
  verification_results : Option String
  draft_answer : Option String
  reflection_feedback : Option ReflectionFeedback
  final_answer : Option String
  confidence_score : Option ℚ
  sources : List String
  tool_calls : List ToolCallRecord
  errors : List ErrorRecord
deriving DecidableEq, Repr

/-- ShortTermMemory._store: the in-process dict keyed by query_id. -/
abbrev QueryStore := List (String × QueryState)

/-- The not-found conditions the store's mutating operations raise:
update_status raises MemoryRetrievalError, the stage-output setters raise
MemoryStorageError. -/
inductive MemoryErr
  | retrievalNotFound
  | storageNotFound
deriving DecidableEq, Repr

/-- The outcome of one store operation: the exception raised (if any) and the
store afterward. -/
abbrev StoreResult := Option MemoryErr × QueryStore

/-- ShortTermMemory.update_status: raises MemoryRetrievalError on an unknown
id, else sets status and updated_at. -/
def update_status (store : QueryStore) (query_id status : String) (now : ℕ) : StoreResult :=
  match assocFind store query_id with
  | none => (some .retrievalNotFound, store)
  | some st => (none, assocSet store query_id { st with status := status, updated_at := now })

/-- ShortTermMemory.store_plan: raises MemoryStorageError on an unknown id,
else sets plan and updated_at. -/
def store_plan (store : QueryStore) (query_id : String) (plan : String) (now : ℕ) : StoreResult :=
  match assocFind store query_id with
  | none => (some .storageNotFound, store)
  | some st => (none, assocSet store query_id { st with plan := some plan, updated_at := now })

/-- The source-list accumulation of store_research_findings: each finding's
url is appended when present and not yet recorded. -/
def addFindingSources (sources : List String) (findings : List ResearchItem) : List String :=
  findings.foldl (fun acc f =>
    match f.url with
    | some u => if u ∈ acc then acc else acc ++ [u]
    | none => acc) sources

/-- ShortTermMemory.store_research_findings: raises MemoryStorageError on an
unknown id, else replaces research_findings, accumulates sources and sets
updated_at. -/
def store_research_findings (store : QueryStore) (query_id : String)
    (findings : List ResearchItem) (now : ℕ) : StoreResult :=
  match assocFind store query_id with
  | none => (some .storageNotFound, store)
  | some st => (none, assocSet store query_id
      { st with research_findings := findings,
                sources := addFindingSources st.sources findings, updated_at := now })

/-- ShortTermMemory.store_verification_results: raises MemoryStorageError on
an unknown id, else sets verification_results and updated_at. -/
def store_verification_results (store : QueryStore) (query_id : String)
    (results : String) (now : ℕ) : StoreResult :=
  match assocFind store query_id with
  | none => (some .storageNotFound, store)
  | some st => (none, assocSet store query_id
      { st with verification_results := some results, updated_at := now })

/-- ShortTermMemory.store_draft_answer: raises MemoryStorageError on an
unknown id, else sets draft_answer and updated_at. -/
def store_draft_answer (store : QueryStore) (query_id : String) (answer : String)
    (now : ℕ) : StoreResult :=
  match assocFind store query_id with
  | none => (some .storageNotFound, store)
  | some st => (none, assocSet store query_id
      { st with draft_answer := some answer, updated_at := now })

/-- ShortTermMemory.store_reflection_feedback: raises MemoryStorageError on an
unknown id, else sets reflection_feedback, confidence_score (default 0.0) and
updated_at. -/
def store_reflection_feedback (store : QueryStore) (query_id : String)
    (feedback : ReflectionFeedback) (now : ℕ) : StoreResult :=
  match assocFind store query_id with
  | none => (some .storageNotFound, store)
  | some st => (none, assocSet store query_id
      { st with reflection_feedback := some feedback,
                confidence_score := some (feedback.confidence.getD 0), updated_at := now })

/-- ShortTermMemory.store_final_answer: raises MemoryStorageError on an
unknown id, else sets final_answer, status "completed" and updated_at. -/
def store_final_answer (store : QueryStore) (query_id : String) (answer : String)
    (now : ℕ) : StoreResult :=
  match assocFind store query_id with
  | none => (some .storageNotFound, store)
  | some st => (none, assocSet store query_id
      { st with final_answer := some answer, status := "completed", updated_at := now })

/-- ShortTermMemory.record_tool_call: appends to the tool-call log when the id
is known, and silently does nothing otherwise (`if state:` guard — no
exception is raised). -/
def record_tool_call (store : QueryStore) (query_id tool params result_type : String)
    (now : ℕ) : StoreResult :=
  match assocFind store query_id with
  | none => (none, store)
  | some st => (none, assocSet store query_id
      { st with tool_calls := st.tool_calls ++
          [{ tool := tool, params := params, result_type := result_type, timestamp := now }] })

/-- ShortTermMemory.record_error: appends to the error log when the id is
known, and silently does nothing otherwise (`if state:` guard — no exception
is raised). -/
def record_error (store : QueryStore) (query_id agent error_type error_message : String)
    (now : ℕ) : StoreResult :=
  match assocFind store query_id with
  | none => (none, store)
  | some st => (none, assocSet store query_id
      { st with errors := st.errors ++
          [{ agent := agent, error_type := error_type,
             error_message := error_message, timestamp := now }] })

/-- ShortTermMemory.increment_retry: increments retry_count when the id is
known, and silently does nothing otherwise (`if state:` guard — no exception
is raised). -/
def increment_retry (store : QueryStore) (query_id : String) : StoreResult :=
  match assocFind store query_id with
  | none => (none, store)
  | some st => (none, assocSet store query_id { st with retry_count := st.retry_count + 1 })

/-! ### Concrete inputs used by witnesses and counterexamples -/

/-- Behavior: every attempt is clean. -/
def cleanBehavior : ℕ → AttemptBehavior := fun _ => cleanAttempt

/-- The who.int scenario: three helpful observations, then one unhelpful. -/
def whoIntObservations : List (String × Bool) :=
  [("who.int", true), ("who.int", true), ("who.int", true), ("who.int", false)]

/-- A concrete verified-findings list with one finding of each
verification status. -/
def witnessFindings : List Finding :=
  [{ status := "verified", confidence := 0.9,
     supporting_sources := ["https://www.who.int/news", "cdc.gov"] },
   { status := "partially_verified", confidence := 0.7, supporting_sources := ["bmj.com"] },
   { status := "unverified", confidence := 0.4, supporting_sources := ["nih.gov"] }]

/-- A concrete findings list with one verified finding whose only supporting
source extracts to an empty domain (the `if domain:` guard skips it). -/
def emptySourceFindings : List Finding :=
  [{ status := "verified", confidence := 0.9, supporting_sources := [""] }]

/-- A concrete findings list where bmj.com supports only a
partially-verified finding. -/
def witnessPartialFindings : List Finding :=
  [{ status := "partially_verified", confidence := 0.7, supporting_sources := ["bmj.com"] },
   { status := "verified", confidence := 0.9, supporting_sources := ["who.int"] }]

/-- The ledger invariant: every stored record has a positive observation
count, no more helpful observations than total ones, and its score equal to
helpful / total. -/
def LedgerWF (ledger : Ledger) : Prop :=
  ∀ d r, assocFind ledger d = some r →
    0 < r.total ∧ r.helpful ≤ r.total ∧ r.score = (r.helpful : ℚ) / r.total

/-! ## Theorems -/

/-! ### Association-list and ledger lemmas -/

theorem assocFind_assocSet {β : Type} (l : List (String × β)) (k key : String) (v : β) :
    assocFind (assocSet l k v) key = if k = key then some v else assocFind l key := by
  induction l with
  | nil => simp [assocFind, assocSet]
  | cons head tail ih =>
    obtain ⟨k0, v0⟩ := head
    by_cases h : k0 = k
    · subst h
      by_cases hk : k0 = key
      · subst hk
        simp [assocSet, assocFind]
      · simp [assocSet, assocFind, hk]
    · by_cases hk0 : k0 = key
      · subst hk0
        have hne : ¬ k = k0 := fun hh => h hh.symm
        simp [assocSet, if_neg h, assocFind, if_neg hne]
      · simp [assocSet, if_neg h, assocFind, if_neg hk0, ih]

theorem ledgerWF_update {L : Ledger} (hL : LedgerWF L) (d : String) (b : Bool) :
    LedgerWF (update_source_score L d b) := by
  intro d' r hfind
  simp only [update_source_score] at hfind
  rw [assocFind_assocSet] at hfind
  by_cases hd : d = d'
  · rw [if_pos hd] at hfind
    cases hold : assocFind L d with
    | none =>
      rw [hold] at hfind
      injection hfind with hr
      subst hr
      refine ⟨Nat.succ_pos _, ?_, rfl⟩
      cases b <;> simp
    | some r0 =>
      obtain ⟨hpos, hle, -⟩ := hL d r0 hold
      rw [hold] at hfind
      injection hfind with hr
      subst hr
      refine ⟨Nat.succ_pos _, ?_, rfl⟩
      cases b <;> simp <;> omega
  · rw [if_neg hd] at hfind
    exact hL d' r hfind

theorem ledgerWF_applyObservations {L : Ledger} (hL : LedgerWF L)
    (obs : List (String × Bool)) : LedgerWF (applyObservations L obs) := by
  induction obs generalizing L with
  | nil => exact hL
  | cons p t ih =>
    obtain ⟨d, b⟩ := p
    exact ih (ledgerWF_update hL d b)

theorem ledgerWF_nil : LedgerWF [] := by
  intro d r h
  simp [assocFind] at h

theorem update_source_score_frame (L : Ledger) (d d' : String) (b : Bool)
    (h : ¬ d = d') : assocFind (update_source_score L d b) d' = assocFind L d' := by
  unfold update_source_score
  rw [assocFind_assocSet, if_neg h]

theorem applyObservations_frame (L : Ledger) (obs : List (String × Bool)) (d : String)
    (h : ∀ p ∈ obs, ¬ p.1 = d) :
    assocFind (applyObservations L obs) d = assocFind L d := by
  induction obs generalizing L with
  | nil => rfl
  | cons p t ih =>
    obtain ⟨d0, b⟩ := p
    show assocFind (applyObservations (update_source_score L d0 b) t) d = assocFind L d
    rw [ih _ (fun q hq => h q (List.mem_cons_of_mem _ hq))]
    exact update_source_score_frame L d0 d b (h (d0, b) (List.mem_cons_self _ _))

/-- Claim C3: after any finite sequence of observe(domain, wasHelpful) calls
executed sequentially, every stored score equals helpfulObservations /
totalObservations and lies in [0, 1]; an observe call for one domain changes
no other domain's record; and after observing who.int helpful three times and
unhelpful once its score is 0.75. -/
theorem C3_source_score_invariant :
    (∀ (obs : List (String × Bool)) (d : String) (r : SourceRecord),
        assocFind (applyObservations [] obs) d = some r →
        r.score = (r.helpful : ℚ) / r.total ∧ 0 ≤ r.score ∧ r.score ≤ 1) ∧
    (∀ (L : Ledger) (d d' : String) (b : Bool), ¬ d = d' →
        assocFind (update_source_score L d b) d' = assocFind L d') ∧
    get_source_score (applyObservations [] whoIntObservations) "who.int" = some 0.75 := by
  refine ⟨?_, update_source_score_frame, ?_⟩
  · intro obs d r hfind
    obtain ⟨hpos, hle, hscore⟩ := ledgerWF_applyObservations ledgerWF_nil obs d r hfind
    have htpos : (0 : ℚ) < (r.total : ℚ) := by exact_mod_cast hpos
    refine ⟨hscore, ?_, ?_⟩
    · rw [hscore]
      positivity
    · rw [hscore, div_le_one htpos]
      exact_mod_cast hle
  · simp only [whoIntObservations, applyObservations, update_source_score, get_source_score,
      assocFind, assocSet]
    norm_num

/-- Witness for C3: the invariant instantiated at the who.int observation
sequence, the frame property at two distinct domains, with every hypothesis
discharged on the concrete input. -/
theorem C3_source_score_invariant_witness :
    ((3 : ℚ) / 4 = ((3 : ℕ) : ℚ) / ((4 : ℕ) : ℚ) ∧ 0 ≤ (3 : ℚ) / 4 ∧ (3 : ℚ) / 4 ≤ 1) ∧
    assocFind (update_source_score [] "who.int" true) "cdc.gov" =
      assocFind ([] : Ledger) "cdc.gov" := by
  constructor
  · have h := C3_source_score_invariant.1 whoIntObservations "who.int"
      { total := 4, helpful := 3, score := 3 / 4 }
      (by simp only [whoIntObservations, applyObservations, update_source_score,
            assocFind, assocSet]
          norm_num)
    simpa using h
  · exact C3_source_score_invariant.2.1 [] "who.int" "cdc.gov" true (by decide)

/-- Claim C4: the credibility level is high exactly when the average finding
confidence is at least 0.85 and the average source reliability at least 0.8;
medium exactly when it is not high, the average finding confidence is at least
0.60 and the average source reliability at least 0.6; low otherwise; and both
averages default to 0.5 on empty inputs. -/
theorem C4_credibility_level_characterization :
    ∀ (source_scores : List ℚ) (verified_findings : List Finding),
      (credibility_level source_scores verified_findings = "high" ↔
        (0.85 : ℚ) ≤ avg_finding_confidence verified_findings ∧
        (0.8 : ℚ) ≤ avg_source_reliability source_scores) ∧
      (credibility_level source_scores verified_findings = "medium" ↔
        ¬ ((0.85 : ℚ) ≤ avg_finding_confidence verified_findings ∧
            (0.8 : ℚ) ≤ avg_source_reliability source_scores) ∧
        (0.6 : ℚ) ≤ avg_finding_confidence verified_findings ∧
        (0.6 : ℚ) ≤ avg_source_reliability source_scores) ∧
      (credibility_level source_scores verified_findings = "low" ↔
        ¬ ((0.85 : ℚ) ≤ avg_finding_confidence verified_findings ∧
            (0.8 : ℚ) ≤ avg_source_reliability source_scores) ∧
        ¬ ((0.6 : ℚ) ≤ avg_finding_confidence verified_findings ∧
            (0.6 : ℚ) ≤ avg_source_reliability source_scores)) ∧
      avg_source_reliability [] = 0.5 ∧ avg_finding_confidence [] = 0.5 := by
  intro ss vf
  have h85 : high_confidence_threshold = (0.85 : ℚ) := by norm_num [high_confidence_threshold]
  have h60 : low_confidence_threshold = (0.6 : ℚ) := by norm_num [low_confidence_threshold]
  unfold credibility_level
  rw [h85, h60]
  refine ⟨?_, ?_, ?_, by simp [avg_source_reliability], by simp [avg_finding_confidence]⟩ <;>
    split_ifs with h1 h2 <;> simp_all

/-- Claim C5: the final answer confidence is the weighted sum
0.4 * verification confidence + 0.4 * credibility-level score +
0.2 * synthesis quality, rounded to two decimals and clamped to [0, 1]; the
level map sends high to 0.9, medium to 0.7 and low to 0.5; the result always
lies in [0, 1] and is a pure function of its inputs; and at verification
confidence 0.9, credibility high and synthesis quality 0.8 it equals 0.88. -/
theorem C5_final_confidence :
    (∀ (verification_confidence answer_quality : ℚ) (level : String),
      0 ≤ calculate_confidence verification_confidence level answer_quality ∧
      calculate_confidence verification_confidence level answer_quality ≤ 1 ∧
      calculate_confidence verification_confidence level answer_quality =
        max 0 (min 1 (roundTo2 (0.4 * verification_confidence +
          0.4 * credibility_score_of_level level + 0.2 * answer_quality)))) ∧
    credibility_score_of_level "high" = 0.9 ∧
    credibility_score_of_level "medium" = 0.7 ∧
    credibility_score_of_level "low" = 0.5 ∧
    calculate_confidence 0.9 "high" 0.8 = 0.88 := by
  refine ⟨?_, by simp [credibility_score_of_level],
    by simp [credibility_score_of_level], by simp [credibility_score_of_level],
    by simp only [calculate_confidence, credibility_score_of_level]
       norm_num [roundTo2, round_eq, min_def, max_def]⟩
  intro vc aq level
  refine ⟨le_max_left 0 _, max_le (by norm_num) (min_le_left 1 _), ?_⟩
  unfold calculate_confidence
  ring_nf

/-- Claim C6: the Reflector recommends a retry exactly when the quality score
is below 0.60, the completeness score is below 0.60, the synthesis confidence
is below 0.50, or the answer is flagged as not directly addressing the
query. -/
theorem C6_should_retry_iff :
    ∀ (overall_score completeness_score synthesis_confidence : ℚ)
      (directly_addresses_query : Bool),
      should_retry overall_score completeness_score synthesis_confidence
          directly_addresses_query = true ↔
        (overall_score < 0.6 ∨ completeness_score < 0.6 ∨
          synthesis_confidence < 0.5 ∨ directly_addresses_query = false) := by
  intro q c s d
  have ht : retry_threshold = (0.6 : ℚ) := by norm_num [retry_threshold]
  unfold should_retry
  rw [ht]
  split_ifs <;> simp_all

/-! ### Pipeline orchestrator lemmas -/

theorem attemptStages_of_no_err (b : AttemptBehavior)
    (h : ¬ attemptResult b true = .agentError) :
    attemptStages b true =
      [Stage.planning, .researching, .verifying, .synthesizing, .reflecting] := by
  rcases b with ⟨p, r, v, s, f, vr⟩
  cases p <;> cases r <;> cases v <;> cases s <;> cases f <;>
    simp_all [attemptResult, attemptStages]

theorem execute_pipeline_from_completed_le (behavior : ℕ → AttemptBehavior)
    (max_retries : ℕ) (er : Bool) :
    ∀ (fuel rc n : ℕ), rc ≤ max_retries →
      (execute_pipeline_from behavior max_retries er rc fuel).1 =
        PipelineOutcome.completed n →
      n ≤ max_retries := by
  intro fuel
  induction fuel with
  | zero =>
    intro rc n hrc h
    simp [execute_pipeline_from] at h
  | succ fuel ih =>
    intro rc n hrc h
    simp only [execute_pipeline_from] at h
    rcases hres : attemptResult (behavior rc) er with _ | _ | _ <;> rw [hres] at h
    · simp at h
      omega
    · split_ifs at h with hlt
      · exact ih (rc + 1) n (by omega) h
      · simp at h
        omega
    · split_ifs at h with hlt
      · exact ih (rc + 1) n (by omega) h

theorem execute_pipeline_from_all_err (behavior : ℕ → AttemptBehavior)
    (max_retries : ℕ) (er : Bool)
    (h : ∀ k, attemptResult (behavior k) er = .agentError) :
    ∀ fuel rc, (execute_pipeline_from behavior max_retries er rc fuel).1 =
      PipelineOutcome.failed := by
  intro fuel
  induction fuel with
  | zero => intro rc; rfl
  | succ fuel ih =>
    intro rc
    simp only [execute_pipeline_from, h rc]
    split_ifs with hlt
    · exact ih (rc + 1)
    · rfl

theorem execute_pipeline_from_all_retry (behavior : ℕ → AttemptBehavior)
    (max_retries : ℕ) (er : Bool)
    (h : ∀ k, attemptResult (behavior k) er = .retryRequested) :
    ∀ fuel rc, rc ≤ max_retries → rc + fuel = max_retries + 1 →
      (execute_pipeline_from behavior max_retries er rc fuel).1 =
        PipelineOutcome.completed max_retries := by
  intro fuel
  induction fuel with
  | zero =>
    intro rc hrc hsum
    omega
  | succ fuel ih =>
    intro rc hrc hsum
    simp only [execute_pipeline_from, h rc]
    split_ifs with hlt
    · exact ih (rc + 1) (by omega) (by omega)
    · have hrcm : rc = max_retries := by omega
      rw [hrcm]

/-- Claim C1 counterexample: with the default retry budget 2, reflection
enabled and a Reflector that requests a retry on the first attempt only, the
pipeline completes after one retry, but the retry re-enters at Planning: the
trace's sixth entry (the first stage of the retry attempt) is Planning, not
Researching, and the planner has run twice. -/
theorem C1_counterexample :
    (execute_pipeline retryOnceBehavior orchestrator_max_retries true).1 =
      PipelineOutcome.completed 1 ∧
    ((execute_pipeline retryOnceBehavior orchestrator_max_retries true).2)[5]? =
      some Stage.planning ∧
    ((execute_pipeline retryOnceBehavior orchestrator_max_retries true).2).count
      Stage.planning = 2 ∧
    ¬ (((execute_pipeline retryOnceBehavior orchestrator_max_retries true).2)[5]? =
        some Stage.researching) := by
  decide

/-- Claim C1 as amended: a Reflector verdict with quality score 0.50 always
recommends a retry; a pipeline whose first attempt ends in a retry request
and whose second attempt succeeds performs exactly one retry (for any retry
budget of at least 1), and the retry re-enters at the Planning stage — the
planner is re-run and the plan recomputed, so the trace is two full
plan-to-reflection rounds and its sixth entry is Planning. -/
theorem C1_retry_reenters_at_planning :
    (∀ (completeness_score synthesis_confidence : ℚ) (directly_addresses : Bool),
      should_retry 0.5 completeness_score synthesis_confidence directly_addresses = true) ∧
    ∀ (behavior : ℕ → AttemptBehavior) (max_retries : ℕ),
      attemptResult (behavior 0) true = .retryRequested →
      attemptResult (behavior 1) true = .success →
      0 < max_retries →
      (execute_pipeline behavior max_retries true).1 = PipelineOutcome.completed 1 ∧
      (execute_pipeline behavior max_retries true).2 =
        [Stage.planning, .researching, .verifying, .synthesizing, .reflecting,
         .planning, .researching, .verifying, .synthesizing, .reflecting] ∧
      ((execute_pipeline behavior max_retries true).2)[5]? = some Stage.planning := by
  constructor
  · intro c s d
    norm_num [should_retry, retry_threshold]
  intro behavior max_retries h0 h1 hR
  obtain ⟨m, rfl⟩ : ∃ m, max_retries = m + 1 := ⟨max_retries - 1, by omega⟩
  have hs0 := attemptStages_of_no_err (behavior 0) (by rw [h0]; simp)
  have hs1 := attemptStages_of_no_err (behavior 1) (by rw [h1]; simp)
  have hrun : execute_pipeline behavior (m + 1) true =
      (PipelineOutcome.completed 1,
        attemptStages (behavior 0) true ++ attemptStages (behavior 1) true) := by
    show execute_pipeline_from behavior (m + 1) true 0 (m + 1 + 1) = _
    simp only [execute_pipeline_from, h0, h1]
    simp
  rw [hrun, hs0, hs1]
  refine ⟨rfl, rfl, rfl⟩

/-- Witness for C1: the amended behavior instantiated at the
retry-on-first-attempt behavior with the default budget 2, every hypothesis
discharged by evaluation. -/
theorem C1_retry_reenters_at_planning_witness :
    should_retry 0.5 0.9 0.9 true = true ∧
    (execute_pipeline retryOnceBehavior 2 true).1 = PipelineOutcome.completed 1 ∧
    (execute_pipeline retryOnceBehavior 2 true).2 =
      [Stage.planning, .researching, .verifying, .synthesizing, .reflecting,
       .planning, .researching, .verifying, .synthesizing, .reflecting] ∧
    ((execute_pipeline retryOnceBehavior 2 true).2)[5]? = some Stage.planning := by
  have h := C1_retry_reenters_at_planning.2 retryOnceBehavior 2 (by decide) (by decide)
    (by decide)
  exact ⟨C1_retry_reenters_at_planning.1 0.9 0.9 true, h.1, h.2.1, h.2.2⟩

/-- Claim C2 counterexample: with the default retry budget 2 and a Reflector
that requests a retry on every attempt, the retry condition still holds after
both retries are consumed, yet the query terminates Completed (with
retry_count 2), not Failed. -/
theorem C2_counterexample :
    (execute_pipeline alwaysRetryBehavior orchestrator_max_retries true).1 =
      PipelineOutcome.completed 2 ∧
    ¬ ((execute_pipeline alwaysRetryBehavior orchestrator_max_retries true).1 =
        PipelineOutcome.failed) := by
  decide

/-- Claim C2 as amended: the retry counter never exceeds the configured
maximum (a completed query's packaged retry_count is at most max_retries); a
recoverable stage error that recurs on every attempt terminates the query in
Failed; but a Reflector retry verdict that recurs on every attempt terminates
the query in Completed with retry_count = max_retries — the quality gate does
not convert exhaustion into a failure. -/
theorem C2_retry_bound_and_exhaustion :
    (∀ (behavior : ℕ → AttemptBehavior) (max_retries : ℕ) (er : Bool) (n : ℕ),
      (execute_pipeline behavior max_retries er).1 = PipelineOutcome.completed n →
      n ≤ max_retries) ∧
    (∀ (behavior : ℕ → AttemptBehavior) (max_retries : ℕ) (er : Bool),
      (∀ k, attemptResult (behavior k) er = .agentError) →
      (execute_pipeline behavior max_retries er).1 = PipelineOutcome.failed) ∧
    (∀ (behavior : ℕ → AttemptBehavior) (max_retries : ℕ) (er : Bool),
      (∀ k, attemptResult (behavior k) er = .retryRequested) →
      (execute_pipeline behavior max_retries er).1 =
        PipelineOutcome.completed max_retries) := by
  refine ⟨?_, ?_, ?_⟩
  · intro b mr er n h
    exact execute_pipeline_from_completed_le b mr er (mr + 1) 0 n (Nat.zero_le _) h
  · intro b mr er h
    exact execute_pipeline_from_all_err b mr er h (mr + 1) 0
  · intro b mr er h
    exact execute_pipeline_from_all_retry b mr er h (mr + 1) 0 (Nat.zero_le _) (by omega)

/-- Witness for C2: the three parts applied at concrete behaviors with the
default budget, every hypothesis discharged by evaluation. -/
theorem C2_retry_bound_and_exhaustion_witness :
    (0 : ℕ) ≤ 2 ∧
    (execute_pipeline alwaysResearchErrBehavior 2 true).1 = PipelineOutcome.failed ∧
    (execute_pipeline alwaysRetryBehavior 2 true).1 = PipelineOutcome.completed 2 := by
  refine ⟨?_, ?_, ?_⟩
  · exact C2_retry_bound_and_exhaustion.1 cleanBehavior 2 true 0 (by decide)
  · exact C2_retry_bound_and_exhaustion.2.1 alwaysResearchErrBehavior 2 true
      (fun _ => rfl)
  · exact C2_retry_bound_and_exhaustion.2.2 alwaysRetryBehavior 2 true
      (fun _ => rfl)

/-! ### Fetch fail-fast and the stage-adapter error wrapper -/

/-- Claim C8 counterexample: BaseAgent.run wraps a domain-not-allowed error
escaping a stage adapter's execute into a generic AgentError, and the
Orchestrator then consumes a pipeline-level retry on it instead of failing
the query immediately: with the research adapter failing on the first attempt
only and budget 2, the query retries and completes instead of failing. -/
theorem C8_counterexample :
    base_agent_run (Except.error StageExc.domainNotAllowed) =
      (Except.error () : Except Unit Unit) ∧
    (execute_pipeline researchErrOnceBehavior orchestrator_max_retries true).1 =
      PipelineOutcome.completed 1 ∧
    ¬ ((execute_pipeline researchErrOnceBehavior orchestrator_max_retries true).1 =
        PipelineOutcome.failed) := by
  refine ⟨rfl, by decide, by decide⟩

/-- Claim C8 as amended: at the fetch layer, a domain-not-allowed or
validation error is raised on the first attempt and never re-attempted by
fetch_and_extract_with_retry (for every network behavior and retry budget,
exactly one attempt is made), and a fetch to example.com raises
domain-not-allowed; but at the orchestrator layer BaseAgent.run erases the
error kind into a generic AgentError, and a stage-adapter error — whatever
its cause — consumes a pipeline-level retry when budget remains, rather than
failing the query immediately. -/
theorem C8_fail_fast_fetch_but_wrapped_retry :
    (∀ (url : String) (net : ℕ → Except FetchError String) (max_retries : ℕ),
      open_url_validation url = some FetchError.domainNotAllowed →
      fetch_and_extract_with_retry url net max_retries =
        (Except.error FetchError.domainNotAllowed, 1)) ∧
    (∀ (url : String) (net : ℕ → Except FetchError String) (max_retries : ℕ),
      open_url_validation url = some FetchError.invalidParameter →
      fetch_and_extract_with_retry url net max_retries =
        (Except.error FetchError.invalidParameter, 1)) ∧
    open_url_validation exampleComUrl = some FetchError.domainNotAllowed ∧
    (∀ (e : StageExc), base_agent_run (Except.error e) =
      (Except.error () : Except Unit Unit)) ∧
    (∀ (behavior : ℕ → AttemptBehavior) (max_retries : ℕ),
      attemptResult (behavior 0) true = .agentError →
      attemptResult (behavior 1) true = .success →
      0 < max_retries →
      (execute_pipeline behavior max_retries true).1 = PipelineOutcome.completed 1) := by
  refine ⟨?_, ?_, by decide, fun e => rfl, ?_⟩
  · intro url net max_retries h
    show fetch_with_retry_from url net max_retries 0 (max_retries + 1) = _
    simp only [fetch_with_retry_from, fetchAttempt, h]
  · intro url net max_retries h
    show fetch_with_retry_from url net max_retries 0 (max_retries + 1) = _
    simp only [fetch_with_retry_from, fetchAttempt, h]
  · intro behavior max_retries h0 h1 hR
    obtain ⟨m, rfl⟩ : ∃ m, max_retries = m + 1 := ⟨max_retries - 1, by omega⟩
    show (execute_pipeline_from behavior (m + 1) true 0 (m + 1 + 1)).1 = _
    simp only [execute_pipeline_from, h0, h1]
    simp

/-- Witness for C8: the fetch-layer parts applied to the example.com URL and
a whitespace URL under the configured fetch budget 3 and a network that would
succeed, and the orchestrator part applied to the research-fails-once
behavior with budget 2; every hypothesis discharged by evaluation. -/
theorem C8_fail_fast_fetch_but_wrapped_retry_witness :
    fetch_and_extract_with_retry exampleComUrl (fun _ => Except.ok "text")
      settings_MAX_RETRIES = (Except.error FetchError.domainNotAllowed, 1) ∧
    fetch_and_extract_with_retry " " (fun _ => Except.ok "text")
      settings_MAX_RETRIES = (Except.error FetchError.invalidParameter, 1) ∧
    (execute_pipeline researchErrOnceBehavior 2 true).1 = PipelineOutcome.completed 1 := by
  refine ⟨?_, ?_, ?_⟩
  · exact C8_fail_fast_fetch_but_wrapped_retry.1 exampleComUrl
      (fun _ => Except.ok "text") settings_MAX_RETRIES (by decide)
  · exact C8_fail_fast_fetch_but_wrapped_retry.2.1 " "
      (fun _ => Except.ok "text") settings_MAX_RETRIES (by decide)
  · exact C8_fail_fast_fetch_but_wrapped_retry.2.2.2.2 researchErrOnceBehavior 2
      (by decide) (by decide) (by decide)

/-! ### Trust-ledger feedback from the verification report -/

theorem flatMap_congr_mem {α β : Type} {l : List α} {f g : α → List β}
    (h : ∀ x ∈ l, f x = g x) : l.flatMap f = l.flatMap g := by
  induction l with
  | nil => rfl
  | cons a t ih =>
    simp only [List.flatMap_cons, h a (List.mem_cons_self _ _)]
    rw [ih (fun x hx => h x (List.mem_cons_of_mem _ hx))]

theorem filter_map_all_ne {srcs : List String}
    (h : ∀ s ∈ srcs, ¬ sourceDomain s = "") (b : Bool) :
    ((srcs.map sourceDomain).filter (fun d => ¬ d = "")).map (fun d => (d, b)) =
      srcs.map (fun s => (sourceDomain s, b)) := by
  have hf : (srcs.map sourceDomain).filter (fun d => ¬ d = "") = srcs.map sourceDomain := by
    rw [List.filter_eq_self]
    intro d hd
    obtain ⟨s, hs, rfl⟩ := List.mem_map.mp hd
    simpa using h s hs
  rw [hf, List.map_map]
  rfl

/-- Claim C7 counterexample: a finding the Verifier marked verified whose
supporting source is the empty string receives no observe call at all — the
update pass issues nothing, although the spec's contract (one
observe(domain, true) per supporting source) would issue one — so not every
supporting source of a verified finding receives an update. -/
theorem C7_counterexample :
    update_source_reliability (generate_verification_report emptySourceFindings) = [] ∧
    specFeedbackUpdates emptySourceFindings = [("", true)] ∧
    ¬ ("", true) ∈
      update_source_reliability (generate_verification_report emptySourceFindings) := by
  refine ⟨rfl, rfl, by decide⟩

/-- Claim C7 as amended: for reports in which every supporting source
extracts to a nonempty domain (urlparse netloc for http-prefixed sources,
the source string itself otherwise — sources with an empty extracted domain
are silently skipped by the `if domain:` guard), the trust-ledger update
pass issues exactly the observe calls of the spec's feedback contract — one
observe(domain, true) per supporting source of each finding the Verifier
marked verified, then one observe(domain, false) per supporting source of
each finding left unverified, in report order and nothing else. -/
theorem C7_trust_feedback_contract :
    ∀ (findings : List Finding),
      (∀ f ∈ findings, ∀ s ∈ f.supporting_sources, ¬ sourceDomain s = "") →
      update_source_reliability (generate_verification_report findings) =
        specFeedbackUpdates findings := by
  intro findings h
  unfold update_source_reliability generate_verification_report specFeedbackUpdates
  refine congrArg₂ (· ++ ·) ?_ ?_ <;>
    refine flatMap_congr_mem (fun f hf => filter_map_all_ne (fun s hs => ?_) _) <;>
      exact h f (List.mem_filter.mp hf).1 s hs

/-- Witness for C7: the contract evaluated on a concrete report holding one
finding of each verification status. -/
theorem C7_trust_feedback_contract_witness :
    update_source_reliability (generate_verification_report witnessFindings) =
      specFeedbackUpdates witnessFindings :=
  C7_trust_feedback_contract witnessFindings (by decide)

/-- Claim C10: a domain whose sources support only partially-verified
findings is untouched by the verification pass — no observe call (helpful or
unhelpful) is issued for it, and its trust-ledger record (hence its counters
and score) is identical before and after the pass. -/
theorem C10_partially_verified_frame :
    ∀ (findings : List Finding) (d : String) (L : Ledger),
      (∀ f ∈ findings, (f.status = "verified" ∨ f.status = "unverified") →
        ∀ s ∈ f.supporting_sources, ¬ sourceDomain s = d) →
      (¬ (d, true) ∈ update_source_reliability (generate_verification_report findings) ∧
       ¬ (d, false) ∈ update_source_reliability (generate_verification_report findings)) ∧
      assocFind (applyObservations L
          (update_source_reliability (generate_verification_report findings))) d =
        assocFind L d := by
  intro findings d L h
  have hmem : ∀ p ∈ update_source_reliability (generate_verification_report findings),
      ¬ p.1 = d := by
    intro p hp hpd
    unfold update_source_reliability generate_verification_report at hp
    rcases List.mem_append.mp hp with hv | hu
    · obtain ⟨f, hf, hps⟩ := List.mem_flatMap.mp hv
      obtain ⟨dd, hdd, rfl⟩ := List.mem_map.mp hps
      obtain ⟨hdm, -⟩ := List.mem_filter.mp hdd
      obtain ⟨s, hs, rfl⟩ := List.mem_map.mp hdm
      obtain ⟨hfmem, hfst⟩ := List.mem_filter.mp hf
      exact h f hfmem (Or.inl (by simpa using hfst)) s hs hpd
    · obtain ⟨f, hf, hps⟩ := List.mem_flatMap.mp hu
      obtain ⟨dd, hdd, rfl⟩ := List.mem_map.mp hps
      obtain ⟨hdm, -⟩ := List.mem_filter.mp hdd
      obtain ⟨s, hs, rfl⟩ := List.mem_map.mp hdm
      obtain ⟨hfmem, hfst⟩ := List.mem_filter.mp hf
      exact h f hfmem (Or.inr (by simpa using hfst)) s hs hpd
  refine ⟨⟨fun hmem2 => hmem _ hmem2 rfl, fun hmem2 => hmem _ hmem2 rfl⟩, ?_⟩
  exact applyObservations_frame L _ d hmem

/-- Witness for C10: bmj.com supports only the partially-verified finding of
a concrete report, so the pass issues no observation for it and the empty
ledger is unchanged at bmj.com. -/
theorem C10_partially_verified_frame_witness :
    (¬ ("bmj.com", true) ∈
        update_source_reliability (generate_verification_report witnessPartialFindings) ∧
     ¬ ("bmj.com", false) ∈
        update_source_reliability (generate_verification_report witnessPartialFindings)) ∧
    assocFind (applyObservations []
        (update_source_reliability (generate_verification_report witnessPartialFindings)))
      "bmj.com" = assocFind ([] : Ledger) "bmj.com" :=
  C10_partially_verified_frame witnessPartialFindings "bmj.com" [] (by decide)

/-! ### Query State Store operations on an unknown id -/

/-- Claim C9 counterexample: on an unknown query id, record_tool_call,
record_error and increment_retry raise no not-found error at all — they
silently leave the store unchanged — while update_status does raise one. -/
theorem C9_counterexample :
    (record_tool_call [] "missing" "web_search" "params" "dict" 0).1 = none ∧
    (record_error [] "missing" "planner" "AgentError" "boom" 0).1 = none ∧
    (increment_retry [] "missing").1 = none ∧
    (record_tool_call [] "missing" "web_search" "params" "dict" 0).2 = [] ∧
    (record_error [] "missing" "planner" "AgentError" "boom" 0).2 = [] ∧
    (increment_retry [] "missing").2 = [] ∧
    (update_status [] "missing" "researching" 0).1 = some MemoryErr.retrievalNotFound := by
  refine ⟨rfl, rfl, rfl, rfl, rfl, rfl, rfl⟩

/-- Claim C9 as amended: on a query id absent from the store, update_status
raises a not-found retrieval error and every stage-output setter raises a
not-found storage error, each leaving the store unchanged; record_tool_call,
record_error and increment_retry also leave the store unchanged, but raise
nothing — they silently do nothing. -/
theorem C9_unknown_id_behavior :
    ∀ (store : QueryStore) (query_id : String), assocFind store query_id = none →
      ∀ (status plan results answer final tool params result_type agent
          error_type error_message : String)
        (findings : List ResearchItem) (feedback : ReflectionFeedback) (now : ℕ),
      update_status store query_id status now = (some MemoryErr.retrievalNotFound, store) ∧
      store_plan store query_id plan now = (some MemoryErr.storageNotFound, store) ∧
      store_research_findings store query_id findings now =
        (some MemoryErr.storageNotFound, store) ∧
      store_verification_results store query_id results now =
        (some MemoryErr.storageNotFound, store) ∧
      store_draft_answer store query_id answer now = (some MemoryErr.storageNotFound, store) ∧
      store_reflection_feedback store query_id feedback now =
        (some MemoryErr.storageNotFound, store) ∧
      store_final_answer store query_id final now = (some MemoryErr.storageNotFound, store) ∧
      record_tool_call store query_id tool params result_type now = (none, store) ∧
      record_error store query_id agent error_type error_message now = (none, store) ∧
      increment_retry store query_id = (none, store) := by
  intro store query_id h status plan results answer final tool params result_type
    agent error_type error_message findings feedback now
  refine ⟨?_, ?_, ?_, ?_, ?_, ?_, ?_, ?_, ?_, ?_⟩ <;>
    simp [update_status, store_plan, store_research_findings, store_verification_results,
      store_draft_answer, store_reflection_feedback, store_final_answer,
      record_tool_call, record_error, increment_retry, h]

/-- Witness for C9: the amended behavior instantiated at the empty store and
a concrete id, the absence hypothesis discharged by evaluation. -/
theorem C9_unknown_id_behavior_witness :
    update_status [] "q1" "researching" 7 = (some MemoryErr.retrievalNotFound, []) ∧
    store_plan [] "q1" "plan" 7 = (some MemoryErr.storageNotFound, []) ∧
    store_research_findings [] "q1" [] 7 = (some MemoryErr.storageNotFound, []) ∧
    store_verification_results [] "q1" "report" 7 = (some MemoryErr.storageNotFound, []) ∧
    store_draft_answer [] "q1" "draft" 7 = (some MemoryErr.storageNotFound, []) ∧
    store_reflection_feedback [] "q1" { payload := "fb", confidence := some 0.8 } 7 =
      (some MemoryErr.storageNotFound, []) ∧
    store_final_answer [] "q1" "answer" 7 = (some MemoryErr.storageNotFound, []) ∧
    record_tool_call [] "q1" "web_search" "params" "dict" 7 = (none, []) ∧
    record_error [] "q1" "planner" "AgentError" "boom" 7 = (none, []) ∧
    increment_retry [] "q1" = (none, []) :=
  C9_unknown_id_behavior [] "q1" rfl "researching" "plan" "report" "draft" "answer"
    "web_search" "params" "dict" "planner" "AgentError" "boom" []
    { payload := "fb", confidence := some 0.8 } 7

end AgentMesh
